import Mathlib

set_option autoImplicit false

/-!
Verification of the ROTATER climate dashboard (React/TypeScript sources).

The embedding covers:
* src/unnamed/part_001 (IntroGlobe): the rotating-globe render loop as a step
  function on an explicit state record (liveness flag, rotation angle, draw
  counter).
* src/unnamed/part_000 (MapViz): the equirectangular projection, its inverse,
  and the click handler that reports inverse-projected coordinates.
* src/services/geminiService.ts (getClimateInsights): request construction
  (last-24 window) and the catch-all fallback result.
* src/components/ChatAssistant.tsx (Dashboard): container state, the
  fetch-then-analyze refresh flow, location selection, coordinate search
  parsing, and the CSV / report export serializers.

JavaScript numbers are modelled as rationals; a possibly-NaN number slot is
modelled as `Option ℚ` with `none` standing for NaN.  Asynchronous calls are
modelled by passing their outcome (`Except`) into the state-transition
function that consumes them.  React state setters become functional record
updates; effectful triggers (network fetches, AI calls) that a handler would
fire are returned as an explicit effect list.
-/

namespace Rotater

/-! ### Data model (fields as used by the components; `types.ts` itself is not
under `src/`, so the record shapes are read off their uses in the sources) -/

/-- One monthly climate sample, as consumed by the CSV export and the AI
prompt (fields `date`, `temperature`, `rainfall`, `ndvi`, `anomaly`). -/
structure ClimateStats where
  date : String
  temperature : ℚ
  rainfall : ℚ
  ndvi : ℚ
  anomaly : ℚ
  deriving DecidableEq, Repr

/-- One forward-risk prediction entry from the AI response schema in
`geminiService.ts` (`month`, `riskLevel`, `predictedTemp`, `description`). -/
structure Prediction where
  month : String
  riskLevel : String
  predictedTemp : ℚ
  description : String
  deriving DecidableEq, Repr

/-- The structured AI analysis result: `summary` plus a `predictions` list. -/
structure Insights where
  summary : String
  predictions : List Prediction
  deriving DecidableEq, Repr

/-- A recorded calamity, as serialized by the report export
(`year`, `type`, `intensity`). -/
structure Calamity where
  year : ℕ
  type : String
  intensity : String
  deriving DecidableEq, Repr

/-- A grounding citation (`title`, `uri`). -/
structure GroundingSource where
  title : String
  uri : String
  deriving DecidableEq, Repr

/-- Result of the search-grounded news lookup. -/
structure NewsResult where
  summary : String
  sources : List GroundingSource
  deriving DecidableEq, Repr

/-- Result of the maps-grounded resource lookup. -/
structure MapResult where
  answer : String
  points : List GroundingSource
  deriving DecidableEq, Repr

/-! ### IntroGlobe (src/unnamed/part_001)

The effect closure keeps `rotation` (a number starting at 0), the liveness
flag `isRunning` (starting `true`), and schedules `render` once per frame via
requestAnimationFrame.  `render` returns immediately when `!isRunning`
(line 44); otherwise it draws and does `rotation += 0.2` (line 57).  The
cleanup function sets `isRunning = false` (line 107).  We track a draw
counter to state the no-draw-after-teardown property. -/

/-- State of the IntroGlobe render loop: the `isRunning` liveness flag, the
accumulated `rotation` angle, and a count of executed draw passes. -/
structure GlobeState where
  isRunning : Bool
  rotation : ℚ
  drawCount : ℕ
  deriving DecidableEq, Repr

/-- Initial loop state at mount: `isRunning = true`, `rotation = 0`. -/
def initGlobe : GlobeState :=
  { isRunning := true, rotation := 0, drawCount := 0 }

/-- One scheduled frame of `render` in part_001: bail out if the liveness
flag is cleared (line 44), otherwise perform the draw pass and advance the
rotation by the fixed increment 0.2 (line 57).  The increment is applied
once per frame; no wall-clock time enters the computation. -/
def render (s : GlobeState) : GlobeState :=
  if s.isRunning then
    { s with rotation := s.rotation + 1/5, drawCount := s.drawCount + 1 }
  else s

/-- The effect cleanup (lines 106-109): clear the liveness flag. -/
def teardown (s : GlobeState) : GlobeState :=
  { s with isRunning := false }

/-- Reduction of an angle into [0, 360): `x mod 360` on rationals. -/
def qmod360 (x : ℚ) : ℚ := x - 360 * ⌊x / 360⌋

/-! ### MapViz (src/unnamed/part_000)

The component builds `d3.geoEquirectangular().scale(width / 6.3)
.translate([width / 2, height / 2])` (lines 25-27).  The projection itself is
library code (d3-geo), not part of this repository. -/

/-- Modelled from the spec: the equirectangular projection of MapViz
("a pure function mapping (longitude, latitude) → (screen x, y), and its
inverse... parameterized by scale and translation"); the d3-geo
implementation is not in src/.  `k` is the pixel-per-degree factor (the d3
scale times π/180 — folding the radian conversion into the parameter keeps
the model in ℚ), `tx`/`ty` the translation. -/
structure Projection where
  k : ℚ
  tx : ℚ
  ty : ℚ
  deriving DecidableEq, Repr

/-- Forward equirectangular projection: x grows with longitude, screen y
grows downward so latitude is subtracted. -/
def project (p : Projection) (lonlat : ℚ × ℚ) : ℚ × ℚ :=
  (p.tx + p.k * lonlat.1, p.ty - p.k * lonlat.2)

/-- Inverse equirectangular projection (total for this projection family). -/
def invert (p : Projection) (xy : ℚ × ℚ) : ℚ × ℚ :=
  ((xy.1 - p.tx) / p.k, (p.ty - xy.2) / p.k)

/-- The click handler of MapViz (lines 54-60): compute
`coords = projection.invert?.([x, y])`; if `coords` is present call
`onLocationSelect(coords[1], coords[0])` (the inverse yields [lon, lat] and
the callback takes (lat, lon)), otherwise do nothing.  The partial inverse is
abstracted as an `Option`-valued function; the returned `Option` is the
callback invocation (`none` = callback not invoked). -/
def handleMapClick (inv : ℚ × ℚ → Option (ℚ × ℚ)) (click : ℚ × ℚ) :
    Option (ℚ × ℚ) :=
  match inv click with
  | some coords => some (coords.2, coords.1)
  | none => none

/-! ### geminiService.ts -/

/-- The static fallback object returned by `getClimateInsights` when the AI
call or response parse throws (lines 55-63). -/
def fallbackInsights : Insights :=
  { summary := "AI Analysis unavailable. Displaying raw data only.",
    predictions := [{ month := "Next Month", riskLevel := "Medium",
                      predictedTemp := 0,
                      description := "Prediction unavailable" }] }

/-- `getClimateInsights` (lines 9-64) with the awaited AI call (network +
JSON parse) abstracted by its outcome: a successful call yields the parsed
insights, any thrown error (network or parse failure) is caught and replaced
by `fallbackInsights`. -/
def getClimateInsights (callResult : Except Unit Insights) : Insights :=
  match callResult with
  | Except.ok insights => insights
  | Except.error _ => fallbackInsights

/-- `stats.slice(-24)` (line 15): the last 24 elements, or the whole list
when it is shorter (JS negative-index slice clamps the start at 0, which
truncated ℕ subtraction mirrors). -/
def recentStats (stats : List ClimateStats) : List ClimateStats :=
  stats.drop (stats.length - 24)

/-- The contents of the AI request assembled by `getClimateInsights`
(lines 15-24): the target coordinates and the serialized sample window
interpolated into the prompt. -/
structure InsightsRequest where
  lat : Option ℚ
  lon : Option ℚ
  serializedStats : List ClimateStats
  deriving DecidableEq, Repr

/-- Request construction of `getClimateInsights`: only `recentStats stats`
is serialized into the prompt. -/
def buildInsightsRequest (stats : List ClimateStats) (lat lon : Option ℚ) :
    InsightsRequest :=
  { lat := lat, lon := lon, serializedStats := recentStats stats }

/-! ### Dashboard container state (ChatAssistant.tsx, lines 130-147) -/

/-- The Dashboard's React state (lines 131-147).  `lat`/`lon` are JS numbers
that can become NaN through the search box, hence `Option ℚ`. -/
structure DashState where
  lat : Option ℚ
  lon : Option ℚ
  startYear : ℤ
  endYear : ℤ
  data : List ClimateStats
  calamities : List Calamity
  loading : Bool
  prediction : Option Insights
  analyzing : Bool
  news : Option NewsResult
  newsLoading : Bool
  resources : Option MapResult
  resourcesLoading : Bool
  deriving DecidableEq, Repr

/-- Initial Dashboard state (lines 131-147): India center, years 2020-2023,
everything else empty/idle. -/
def initDashState : DashState :=
  { lat := some (20.5937 : ℚ), lon := some (78.9629 : ℚ),
    startYear := 2020, endYear := 2023,
    data := [], calamities := [],
    loading := false, prediction := none, analyzing := false,
    news := none, newsLoading := false,
    resources := none, resourcesLoading := false }

/-- Asynchronous work a handler can fire (network fetch or AI call). -/
inductive Effect where
  | fetchClimateData
  | fetchCalamityHistory
  | aiInsights
  | searchNews
  | mapResources
  deriving DecidableEq, Repr

/-- `handleLocationSelect` (lines 174-178): store the new point; the comment
in the source marks the reload as deliberately not auto-triggered, so the
effect list is empty. -/
def handleLocationSelect (newLat newLon : ℚ) (st : DashState) :
    DashState × List Effect :=
  ({ st with lat := some newLat, lon := some newLon }, [])

/-- `loadData` (lines 149-167) with the two awaited results passed in:
set the loading/analyzing flags and clear the grounding panels, store the
fetched dataset and calamity history and drop the loading flag, then store
the AI insights (already fallback-substituted by `getClimateInsights`) and
drop the analyzing flag. -/
def loadData (stats : List ClimateStats) (events : List Calamity)
    (aiCall : Except Unit Insights) (st : DashState) : DashState :=
  let started := { st with loading := true, analyzing := true,
                           news := none, resources := none }
  let fetched := { started with data := stats, calamities := events,
                                loading := false }
  { fetched with prediction := some (getClimateInsights aiCall),
                 analyzing := false }

/-! ### Coordinate search box (ChatAssistant.tsx, lines 295-303) -/

/-- Value of a digit string, most significant first. -/
def digitsToNat (ds : List Char) : ℕ :=
  ds.foldl (fun acc c => 10 * acc + (c.toNat - 48)) 0

/-- Modelled from the spec: JS `String.prototype.split(',')` as used by the
search box (a language builtin, not repo code): split on every comma;
an input without commas yields a single field, and `""` yields `[""]`. -/
def splitCommaAux : List Char → List (List Char)
  | [] => [[]]
  | c :: cs =>
    let r := splitCommaAux cs
    if c = ',' then [] :: r
    else
      match r with
      | h :: t => (c :: h) :: t
      | [] => [[c]]

/-- String-level wrapper for `splitCommaAux`. -/
def splitComma (s : String) : List String :=
  (splitCommaAux s.toList).map String.mk

/-- Modelled from the spec: JS `parseFloat` as used by the search box (a
language builtin, not repo code): skip leading whitespace, read an optional
sign and decimal digits with an optional fractional part, ignore trailing
characters, and return NaN (`none`) when no digit is read.  Exponent
notation is omitted; no claim exercises it. -/
def parseFloatQ (s : String) : Option ℚ :=
  let cs := s.toList.dropWhile Char.isWhitespace
  let sign : ℚ := if cs.head? = some '-' then -1 else 1
  let body := if cs.head? = some '-' ∨ cs.head? = some '+' then cs.tail else cs
  let intDigits := body.takeWhile Char.isDigit
  let rest := body.dropWhile Char.isDigit
  let fracDigits :=
    match rest with
    | '.' :: t => t.takeWhile Char.isDigit
    | _ => []
  if intDigits.isEmpty && fracDigits.isEmpty then none
  else some (sign * ((digitsToNat intDigits : ℚ)
                      + (digitsToNat fracDigits : ℚ) / (10 : ℚ) ^ fracDigits.length))

/-- The search box Enter handler (lines 295-303): split the raw value on
commas; when there are exactly two fields, store `parseFloat` of each into
`lat`/`lon` (no numeric validation happens), otherwise do nothing. -/
def handleSearchSubmit (value : String) (st : DashState) : DashState :=
  match splitComma value with
  | [a, b] => { st with lat := parseFloatQ a, lon := parseFloatQ b }
  | _ => st

/-! ### Exports (ChatAssistant.tsx, lines 194-272) -/

/-- Modelled from the spec: JS `Array.prototype.join(sep)` (a language
builtin, not repo code). -/
def joinSep (sep : String) : List String → String
  | [] => ""
  | [a] => a
  | a :: b :: rest => a ++ sep ++ joinSep sep (b :: rest)

/-- Zero-padded decimal rendering of `n` to width `d`. -/
def padZeros (d : ℕ) (n : ℕ) : String :=
  let s := toString n
  String.mk (List.replicate (d - s.length) '0') ++ s

/-- Modelled from the spec: JS `Number.prototype.toFixed(d)` (a language
builtin, not repo code) on a rational: sign, then the magnitude rounded to
`d` decimal places, ties away from zero. -/
def toFixedQ (d : ℕ) (q : ℚ) : String :=
  let m : ℕ := 10 ^ d
  let n : ℕ := (⌊|q| * (m : ℚ) + 1/2⌋).toNat
  (if q < 0 then "-" else "") ++ toString (n / m) ++ "." ++ padZeros d (n % m)

/-- `toFixed` lifted to a possibly-NaN number: JS renders NaN as "NaN". -/
def toFixedJ (d : ℕ) : Option ℚ → String
  | none => "NaN"
  | some q => toFixedQ d q

/-- Modelled from the spec: JS default number-to-string conversion for the
values interpolated into the report.  Integral values render as integers
(the only case the sources exercise: `predictedTemp` placeholders); for
non-integral values the model renders `num/den`, a divergence from the JS
shortest-round-trip decimal that no claim inspects. -/
def jsNumRepr (q : ℚ) : String :=
  if q.den = 1 then toString q.num else toString q.num ++ "/" ++ toString q.den

/-- The CSV header row, `headers.join(',')` of line 200. -/
def csvHeader : String :=
  joinSep "," ["Date", "Temperature (C)", "Rainfall (mm)", "NDVI", "Anomaly"]

/-- One CSV data row (line 203): date plus the four numeric fields at two
fixed decimals. -/
def csvRow (row : ClimateStats) : String :=
  row.date ++ "," ++ toFixedQ 2 row.temperature ++ "," ++ toFixedQ 2 row.rainfall
    ++ "," ++ toFixedQ 2 row.ndvi ++ "," ++ toFixedQ 2 row.anomaly

/-- The CSV payload (lines 201-204): header and one row per sample, joined
with newlines. -/
def csvContent (data : List ClimateStats) : String :=
  joinSep "\n" (csvHeader :: data.map csvRow)

/-- Outcome of an export button press: either a blocking notice (`alert`)
with no artifact, or a downloadable artifact with its filename and body. -/
inductive ExportAction where
  | notice (message : String)
  | download (filename : String) (content : String)
  deriving DecidableEq, Repr

/-- `handleDownloadCSV` (lines 194-214): alert and bail out when the dataset
is empty, otherwise serialize the held dataset. -/
def handleDownloadCSV (st : DashState) : ExportAction :=
  if st.data.length = 0 then
    ExportAction.notice "No data available to download."
  else
    ExportAction.download
      ("climate_data_" ++ toFixedJ 2 st.lat ++ "_" ++ toFixedJ 2 st.lon ++ ".csv")
      (csvContent st.data)

/-- The separator line used by the report sections. -/
def reportDivider : String := "==============================\n"

/-- One prediction block of the report (lines 235-240). -/
def predictionBlock (p : Prediction) : String :=
  "[" ++ p.month ++ "] " ++ p.riskLevel.toUpper ++ "\n"
    ++ "   Temp: " ++ jsNumRepr p.predictedTemp ++ "°C\n"
    ++ "   Note: " ++ p.description ++ "\n"
    ++ "------------------------------\n"

/-- One calamity line of the report (line 247). -/
def calamityLine (c : Calamity) : String :=
  toString c.year ++ ": " ++ c.type ++ " (" ++ c.intensity ++ ")\n"

/-- The optional news section of the report (lines 253-262). -/
def newsBlock (n : NewsResult) : String :=
  "\n" ++ reportDivider ++ "RECENT LOCAL NEWS\n" ++ reportDivider
    ++ n.summary ++ "\n"
    ++ (if n.sources.length > 0 then
          "\nSources:\n"
            ++ String.join (n.sources.map
                 (fun s => "- " ++ s.title ++ ": " ++ s.uri ++ "\n"))
        else "")

/-- The report body (lines 222-262), with the wall-clock timestamp of
`new Date().toLocaleString()` passed in as `generatedAt`. -/
def buildReport (generatedAt : String) (st : DashState) (p : Insights) : String :=
  "ROTATER INTELLIGENCE REPORT\n"
    ++ "Generated: " ++ generatedAt ++ "\n"
    ++ "Location: " ++ toFixedJ 4 st.lat ++ ", " ++ toFixedJ 4 st.lon ++ "\n"
    ++ "Date Range: " ++ toString st.startYear ++ " - " ++ toString st.endYear ++ "\n\n"
    ++ reportDivider ++ "AI ANALYSIS SUMMARY\n" ++ reportDivider
    ++ p.summary ++ "\n\n"
    ++ reportDivider ++ "RISK PREDICTIONS (Next 12 Months)\n" ++ reportDivider
    ++ String.join (p.predictions.map predictionBlock)
    ++ "\n" ++ reportDivider ++ "RECORDED CALAMITIES\n" ++ reportDivider
    ++ (if st.calamities.length > 0 then
          String.join (st.calamities.map calamityLine)
        else
          "No significant calamities recorded in recent history or simulated data.\n")
    ++ (match st.news with
        | some n => newsBlock n
        | none => "")

/-- `handleExportReport` (lines 216-272): alert and bail out when no AI
summary is held, otherwise serialize the held state into the report. -/
def handleExportReport (generatedAt : String) (st : DashState) : ExportAction :=
  match st.prediction with
  | none => ExportAction.notice "Please run analysis first to generate a report."
  | some p =>
    ExportAction.download
      ("climate_report_" ++ toFixedJ 2 st.lat ++ "_" ++ toFixedJ 2 st.lon ++ ".txt")
      (buildReport generatedAt st p)

/-- The sample named by the CSV-format claim. -/
def sampleRow : ClimateStats :=
  { date := "2023-01", temperature := 21.5, rainfall := 3.2,
    ndvi := 0.41, anomaly := -0.3 }

/-- The single-sample dataset named by the CSV-format claim. -/
def sampleStats : List ClimateStats := [sampleRow]

/-- A concrete 24-sample window, used to exercise the last-24 slice. -/
def sampleWindow : List ClimateStats := List.replicate 24 sampleRow

/-- A Dashboard state holding a fetched dataset and an AI summary, used to
exercise the present-state export paths. -/
def loadedState : DashState :=
  { initDashState with data := sampleStats, prediction := some fallbackInsights }

/-! ### Helper lemmas -/

/-- After `n` frames from mount the loop is still live and the rotation
variable holds exactly `n * (1/5)` (the code never reduces it mod 360). -/
theorem globe_rotation_formula (n : ℕ) :
    (render^[n] initGlobe).isRunning = true ∧
    (render^[n] initGlobe).rotation = (n : ℚ) * (1/5) := by
  induction n with
  | zero => simp [initGlobe]
  | succ k ih =>
    rw [Function.iterate_succ_apply']
    rcases ih with ⟨hrun, hrot⟩
    constructor
    · simp [render, hrun]
    · simp only [render, hrun, if_true]
      push_cast
      rw [hrot]
      ring

/-- A state with the liveness flag cleared is a fixed point of `render`. -/
theorem render_stopped_fixed (s : GlobeState) (h : s.isRunning = false) :
    render s = s := by
  simp [render, h]

/-- `joinSep` on a list with at least two elements peels off the head. -/
theorem joinSep_cons (sep a : String) (l : List String) (h : l ≠ []) :
    joinSep sep (a :: l) = a ++ sep ++ joinSep sep l := by
  cases l with
  | nil => exact absurd rfl h
  | cons b t => rfl

/-- Evaluation of `toFixed(2)` at 21.5. -/
theorem toFixedQ_21_5 : toFixedQ 2 (21.5 : ℚ) = "21.50" := by
  have h1 : (⌊|(21.5 : ℚ)| * ((10 ^ 2 : ℕ) : ℚ) + 1/2⌋) = 2150 := by
    rw [abs_of_nonneg (by norm_num)]
    norm_num [Int.floor_eq_iff]
  have h2 : ¬ ((21.5 : ℚ) < 0) := by norm_num
  simp only [toFixedQ, h1, h2, if_false]
  rfl

/-- Evaluation of `toFixed(2)` at 3.2. -/
theorem toFixedQ_3_2 : toFixedQ 2 (3.2 : ℚ) = "3.20" := by
  have h1 : (⌊|(3.2 : ℚ)| * ((10 ^ 2 : ℕ) : ℚ) + 1/2⌋) = 320 := by
    rw [abs_of_nonneg (by norm_num)]
    norm_num [Int.floor_eq_iff]
  have h2 : ¬ ((3.2 : ℚ) < 0) := by norm_num
  simp only [toFixedQ, h1, h2, if_false]
  rfl

/-- Evaluation of `toFixed(2)` at 0.41. -/
theorem toFixedQ_0_41 : toFixedQ 2 (0.41 : ℚ) = "0.41" := by
  have h1 : (⌊|(0.41 : ℚ)| * ((10 ^ 2 : ℕ) : ℚ) + 1/2⌋) = 41 := by
    rw [abs_of_nonneg (by norm_num)]
    norm_num [Int.floor_eq_iff]
  have h2 : ¬ ((0.41 : ℚ) < 0) := by norm_num
  simp only [toFixedQ, h1, h2, if_false]
  rfl

/-- Evaluation of `toFixed(2)` at -0.3. -/
theorem toFixedQ_neg_0_3 : toFixedQ 2 (-0.3 : ℚ) = "-0.30" := by
  have h1 : (⌊|(-0.3 : ℚ)| * ((10 ^ 2 : ℕ) : ℚ) + 1/2⌋) = 30 := by
    rw [abs_of_nonpos (by norm_num)]
    norm_num [Int.floor_eq_iff]
  have h2 : ((-0.3 : ℚ) < 0) := by norm_num
  simp only [toFixedQ, h2, if_true, h1]
  rfl

/-- The CSV row of the claim's sample evaluates to the claimed literal. -/
theorem csvRow_sampleRow : csvRow sampleRow = "2023-01,21.50,3.20,0.41,-0.30" := by
  simp only [csvRow, sampleRow]
  rw [toFixedQ_21_5, toFixedQ_3_2, toFixedQ_0_41, toFixedQ_neg_0_3]
  rfl

/-! ### Claim theorems -/

/-- C1: when the AI summary call rejects, `getClimateInsights` returns the
static fallback object (summary "AI Analysis unavailable. Displaying raw
data only." and a single Medium-risk placeholder prediction) instead of
propagating the error, and in the refresh flow the dataset fetched before
the AI step remains held by the container: the `data` field set from the
fetch is not cleared or replaced by the AI failure. -/
theorem C1_ai_failure_fallback_preserves_data (stats : List ClimateStats)
    (events : List Calamity) (st : DashState) :
    getClimateInsights (Except.error ()) = fallbackInsights ∧
    fallbackInsights =
      { summary := "AI Analysis unavailable. Displaying raw data only.",
        predictions := [{ month := "Next Month", riskLevel := "Medium",
                          predictedTemp := 0,
                          description := "Prediction unavailable" }] } ∧
    (loadData stats events (Except.error ()) st).data = stats ∧
    (loadData stats events (Except.error ()) st).prediction = some fallbackInsights := by
  refine ⟨rfl, rfl, ?_, ?_⟩ <;> simp [loadData, getClimateInsights]

/-- C2: for every click pixel, the selection callback (the returned
`Option` event) carries the (lat, lon) obtained from the inverse projection
exactly when the inverse is defined at that pixel, and is never invoked
when the inverse is undefined there (the spec identifies "outside the
projected bounds" with the inverse being undefined). -/
theorem C2_click_reports_inverse_exactly
    (inv : ℚ × ℚ → Option (ℚ × ℚ)) (click : ℚ × ℚ) :
    handleMapClick inv click = (inv click).map (fun c => (c.2, c.1)) ∧
    ((handleMapClick inv click).isSome ↔ (inv click).isSome) := by
  cases h : inv click <;> simp [handleMapClick, h]

/-- C3 counterexample: at N = 1800 frames the rotation angle held by the
code is 360, while (1800 * 0.2) mod 360 is 0, so the claim's equation fails
as stated (the code never reduces the accumulating angle mod 360). -/
theorem C3_counterexample_frame_1800 :
    (render^[1800] initGlobe).rotation = 360 ∧
    qmod360 ((1800 : ℚ) * 0.2) = 0 ∧
    (render^[1800] initGlobe).rotation ≠ qmod360 ((1800 : ℚ) * 0.2) := by
  have h := (globe_rotation_formula 1800).2
  have h360 : (render^[1800] initGlobe).rotation = 360 := by
    rw [h]; norm_num
  have hq : qmod360 ((1800 : ℚ) * 0.2) = 0 := by
    norm_num [qmod360]
  refine ⟨h360, hq, ?_⟩
  rw [h360, hq]
  norm_num

/-- C3 (amended): in the RUNNING state the rotation angle is advanced by the
fixed increment 0.2 once per frame, so after N frames the rotation variable
equals N * 0.2 exactly (frame-count-driven — no wall-clock time enters the
model); the code keeps the unreduced accumulator, which is congruent to
(N * 0.2) mod 360 modulo 360 and hence denotes the same globe orientation. -/
theorem C3_rotation_frame_count (n : ℕ) :
    (render^[n] initGlobe).rotation = (n : ℚ) * 0.2 ∧
    qmod360 ((render^[n] initGlobe).rotation) = qmod360 ((n : ℚ) * 0.2) := by
  have h := (globe_rotation_formula n).2
  have h02 : (0.2 : ℚ) = 1/5 := by norm_num
  constructor
  · rw [h, h02]
  · rw [h, h02]

/-- C4: after the teardown cleanup clears the liveness flag, every scheduled
frame bails out at its top, so no further draw passes occur: the state is a
fixed point of `render` and the draw-call count never increases. -/
theorem C4_no_draw_after_teardown (s : GlobeState) (n : ℕ) :
    render^[n] (teardown s) = teardown s ∧
    (render^[n] (teardown s)).drawCount = s.drawCount := by
  have hfix : render (teardown s) = teardown s :=
    render_stopped_fixed (teardown s) rfl
  have hiter : render^[n] (teardown s) = teardown s := Function.iterate_fixed hfix n
  exact ⟨hiter, by rw [hiter]; rfl⟩

/-- C9: a location selection from the map updates only the container's
current point: it fires no fetch or AI effect, and every other piece of
container state (dataset, calamities, prediction, news, resources, loading
flags, year range) is left unchanged. -/
theorem C9_location_select_only_point (newLat newLon : ℚ) (st : DashState) :
    (handleLocationSelect newLat newLon st).2 = [] ∧
    (handleLocationSelect newLat newLon st).1.lat = some newLat ∧
    (handleLocationSelect newLat newLon st).1.lon = some newLon ∧
    (handleLocationSelect newLat newLon st).1.startYear = st.startYear ∧
    (handleLocationSelect newLat newLon st).1.endYear = st.endYear ∧
    (handleLocationSelect newLat newLon st).1.data = st.data ∧
    (handleLocationSelect newLat newLon st).1.calamities = st.calamities ∧
    (handleLocationSelect newLat newLon st).1.loading = st.loading ∧
    (handleLocationSelect newLat newLon st).1.prediction = st.prediction ∧
    (handleLocationSelect newLat newLon st).1.analyzing = st.analyzing ∧
    (handleLocationSelect newLat newLon st).1.news = st.news ∧
    (handleLocationSelect newLat newLon st).1.newsLoading = st.newsLoading ∧
    (handleLocationSelect newLat newLon st).1.resources = st.resources ∧
    (handleLocationSelect newLat newLon st).1.resourcesLoading = st.resourcesLoading :=
  ⟨rfl, rfl, rfl, rfl, rfl, rfl, rfl, rfl, rfl, rfl, rfl, rfl, rfl, rfl⟩

/-- C5: for every non-empty dataset, the CSV export produces the header line
`Date,Temperature (C),Rainfall (mm),NDVI,Anomaly` followed by exactly one
data row per sample (numeric fields at two fixed decimals), and the claim's
single sample yields the data row `2023-01,21.50,3.20,0.41,-0.30`. -/
theorem C5_csv_format (data : List ClimateStats) (h : data ≠ []) :
    csvContent data = csvHeader ++ "\n" ++ joinSep "\n" (data.map csvRow) ∧
    csvHeader = "Date,Temperature (C),Rainfall (mm),NDVI,Anomaly" ∧
    (data.map csvRow).length = data.length ∧
    csvRow { date := "2023-01", temperature := 21.5, rainfall := 3.2,
             ndvi := 0.41, anomaly := -0.3 } = "2023-01,21.50,3.20,0.41,-0.30" := by
  refine ⟨?_, rfl, by simp, csvRow_sampleRow⟩
  unfold csvContent
  exact joinSep_cons "\n" csvHeader (data.map csvRow) (by simpa using h)

/-- Witness for C5 at the claim's one-sample dataset: the full CSV payload
is the header plus the single claimed data row. -/
theorem C5_csv_format_witness :
    sampleStats ≠ ([] : List ClimateStats) ∧
    csvContent sampleStats =
      "Date,Temperature (C),Rainfall (mm),NDVI,Anomaly\n2023-01,21.50,3.20,0.41,-0.30" := by
  have hne : sampleStats ≠ ([] : List ClimateStats) := by simp [sampleStats]
  have main := C5_csv_format sampleStats hne
  refine ⟨hne, ?_⟩
  rw [main.1, main.2.1]
  have hmap : sampleStats.map csvRow = ["2023-01,21.50,3.20,0.41,-0.30"] := by
    simp [sampleStats, csvRow_sampleRow]
  rw [hmap]
  rfl

/-- C6: when the prerequisite state is absent (empty dataset for the CSV
export; no AI summary for the report export), the export produces no
artifact and surfaces a user-visible notice; when the state is present, the
export is a pure serialization of the already-held state. -/
theorem C6_export_guards (ts : String) (stEmpty stNoAI : DashState)
    (hempty : stEmpty.data = []) (hnoai : stNoAI.prediction = none) :
    handleDownloadCSV stEmpty = ExportAction.notice "No data available to download." ∧
    handleExportReport ts stNoAI =
      ExportAction.notice "Please run analysis first to generate a report." ∧
    (∀ s : DashState, s.data ≠ [] →
       handleDownloadCSV s =
         ExportAction.download
           ("climate_data_" ++ toFixedJ 2 s.lat ++ "_" ++ toFixedJ 2 s.lon ++ ".csv")
           (csvContent s.data)) ∧
    (∀ (s : DashState) (p : Insights), s.prediction = some p →
       handleExportReport ts s =
         ExportAction.download
           ("climate_report_" ++ toFixedJ 2 s.lat ++ "_" ++ toFixedJ 2 s.lon ++ ".txt")
           (buildReport ts s p)) := by
  refine ⟨?_, ?_, ?_, ?_⟩
  · simp [handleDownloadCSV, hempty]
  · simp [handleExportReport, hnoai]
  · intro s hs
    have hlen : ¬ s.data.length = 0 := by simpa using hs
    simp [handleDownloadCSV, hlen]
  · intro s p hp
    simp [handleExportReport, hp]

/-- Witness for C6: the initial state (empty dataset, no AI summary) yields
both notices and no artifact; a loaded state yields download artifacts
serializing the held state. -/
theorem C6_export_guards_witness :
    initDashState.data = [] ∧ initDashState.prediction = none ∧
    handleDownloadCSV initDashState =
      ExportAction.notice "No data available to download." ∧
    handleExportReport "2026-10-11" initDashState =
      ExportAction.notice "Please run analysis first to generate a report." ∧
    handleDownloadCSV loadedState =
      ExportAction.download
        ("climate_data_" ++ toFixedJ 2 loadedState.lat ++ "_"
          ++ toFixedJ 2 loadedState.lon ++ ".csv")
        (csvContent loadedState.data) ∧
    handleExportReport "2026-10-11" loadedState =
      ExportAction.download
        ("climate_report_" ++ toFixedJ 2 loadedState.lat ++ "_"
          ++ toFixedJ 2 loadedState.lon ++ ".txt")
        (buildReport "2026-10-11" loadedState fallbackInsights) := by
  have main := C6_export_guards "2026-10-11" initDashState initDashState rfl rfl
  exact ⟨rfl, rfl, main.1, main.2.1,
         main.2.2.1 loadedState (by simp [loadedState, sampleStats]),
         main.2.2.2 loadedState fallbackInsights rfl⟩

/-- C7: for all valid geographic points (latitude in [-90, 90], longitude in
[-180, 180]) and any viewport-derived projection with non-zero scale,
projecting then inverse-projecting reproduces the original point exactly
(hence within any pixel rounding tolerance). -/
theorem C7_projection_roundtrip (p : Projection) (hk : p.k ≠ 0) (lon lat : ℚ)
    (hlat₁ : -90 ≤ lat) (hlat₂ : lat ≤ 90)
    (hlon₁ : -180 ≤ lon) (hlon₂ : lon ≤ 180) :
    invert p (project p (lon, lat)) = (lon, lat) := by
  simp only [project, invert, Prod.mk.injEq]
  constructor <;> field_simp

/-- Witness for C7 at a concrete projection (k = 1, centred at 480×250) and
the concrete in-range point (lon, lat) = (90, 45). -/
theorem C7_projection_roundtrip_witness :
    (Projection.mk 1 480 250).k ≠ 0 ∧
    (-90 : ℚ) ≤ 45 ∧ (45 : ℚ) ≤ 90 ∧ (-180 : ℚ) ≤ 90 ∧ (90 : ℚ) ≤ 180 ∧
    invert (Projection.mk 1 480 250)
      (project (Projection.mk 1 480 250) (90, 45)) = (90, 45) :=
  ⟨one_ne_zero, by norm_num, by norm_num, by norm_num, by norm_num,
   C7_projection_roundtrip (Projection.mk 1 480 250) one_ne_zero 90 45
     (by norm_num) (by norm_num) (by norm_num) (by norm_num)⟩

/-- C8 counterexample: the malformed search string "abc,def" (two
comma-separated fields, neither a number) is not silently ignored — the
handler overwrites both coordinates with NaN (`none`), changing the
container state. -/
theorem C8_counterexample_nan_stored :
    splitComma "abc,def" = ["abc", "def"] ∧
    (handleSearchSubmit "abc,def" initDashState).lat = none ∧
    (handleSearchSubmit "abc,def" initDashState).lon = none ∧
    initDashState.lat = some (20.5937 : ℚ) ∧
    handleSearchSubmit "abc,def" initDashState ≠ initDashState := by
  have hs : splitComma "abc,def" = ["abc", "def"] := by decide
  have ha : parseFloatQ "abc" = none := by decide
  have hd : parseFloatQ "def" = none := by decide
  have hmain : handleSearchSubmit "abc,def" initDashState =
      { initDashState with lat := parseFloatQ "abc", lon := parseFloatQ "def" } := by
    simp only [handleSearchSubmit, hs]
  have hlat : (handleSearchSubmit "abc,def" initDashState).lat = none := by
    rw [hmain]; exact ha
  have hlon : (handleSearchSubmit "abc,def" initDashState).lon = none := by
    rw [hmain]; exact hd
  refine ⟨hs, hlat, hlon, rfl, ?_⟩
  intro heq
  rw [heq] at hlat
  simp [initDashState] at hlat

/-- C8 (amended): a search string that does not split into exactly two
comma-separated fields is silently ignored — the container state is left
unchanged, with no error surfaced; a string splitting into exactly two
fields is accepted without numeric validation, storing `parseFloat` of each
field (which is NaN for a field with no numeric prefix). -/
theorem C8_search_split_behavior (value : String) (st : DashState) :
    ((splitComma value).length ≠ 2 → handleSearchSubmit value st = st) ∧
    (∀ a b : String, splitComma value = [a, b] →
       handleSearchSubmit value st =
         { st with lat := parseFloatQ a, lon := parseFloatQ b }) := by
  constructor
  · intro hlen
    cases hs : splitComma value with
    | nil => simp only [handleSearchSubmit, hs]
    | cons a t =>
      cases t with
      | nil => simp only [handleSearchSubmit, hs]
      | cons b t2 =>
        cases t2 with
        | nil => rw [hs] at hlen; simp at hlen
        | cons c t3 => simp only [handleSearchSubmit, hs]
  · intro a b hab
    simp only [handleSearchSubmit, hab]

/-- Witness for C8: the two-field string "abc,def" stores the parse of each
field, and the one-field string "10" leaves the state unchanged. -/
theorem C8_search_split_behavior_witness :
    splitComma "abc,def" = ["abc", "def"] ∧
    handleSearchSubmit "abc,def" loadedState =
      { loadedState with lat := parseFloatQ "abc", lon := parseFloatQ "def" } ∧
    (splitComma "10").length ≠ 2 ∧
    handleSearchSubmit "10" loadedState = loadedState :=
  ⟨by decide,
   (C8_search_split_behavior "abc,def" loadedState).2 "abc" "def" (by decide),
   by decide,
   (C8_search_split_behavior "10" loadedState).1 (by decide)⟩

/-- C10: `getClimateInsights` serializes into its AI request exactly the
last min(24, length) samples of the input list — the slice is a suffix of
the claimed length, and samples earlier than the last 24 never influence
the request contents. -/
theorem C10_last24_window (stats : List ClimateStats) (lat lon : Option ℚ) :
    (recentStats stats).length = min 24 stats.length ∧
    stats.take (stats.length - 24) ++ recentStats stats = stats ∧
    (∀ earlier : List ClimateStats, 24 ≤ stats.length →
       buildInsightsRequest (earlier ++ stats) lat lon =
         buildInsightsRequest stats lat lon) := by
  refine ⟨?_, ?_, ?_⟩
  · simp only [recentStats, List.length_drop]
    omega
  · exact List.take_append_drop _ stats
  · intro earlier h24
    have hdrop : recentStats (earlier ++ stats) = recentStats stats := by
      unfold recentStats
      rw [List.length_append,
          show earlier.length + stats.length - 24
             = earlier.length + (stats.length - 24) by omega,
          List.drop_append]
    simp only [buildInsightsRequest, hdrop]

/-- Witness for C10 at a concrete 24-sample window: prepending an extra
sample does not change the serialized request. -/
theorem C10_last24_window_witness :
    24 ≤ sampleWindow.length ∧
    buildInsightsRequest (sampleStats ++ sampleWindow) none none =
      buildInsightsRequest sampleWindow none none :=
  ⟨by simp [sampleWindow],
   (C10_last24_window sampleWindow none none).2.2 sampleStats (by simp [sampleWindow])⟩

end Rotater
